import Mathlib

/-!
A shallow embedding of the 8085 CPU core of this repository (the
`CPU8085` class in `src/components/SevenSegmentDisplay.tsx`, imported by
the application as `services/8085`), together with proofs settling the
specification claims about it.

Conventions used to render the JavaScript numeric operations:
* `x & 0xFF`, `x & 0xFFFF`, `x & 0x0F` (masking to a power of two) are
  rendered as `x % 256`, `x % 65536`, `x % 16`.  Where the source value
  can be negative (subtraction, decrement, `~`), the computation is done
  on `Int`, whose Euclidean `%` agrees with JavaScript's two's-complement
  `& (2^k - 1)` for all 32-bit values.
* a single-bit test `(x & 2^k) !== 0` is rendered as `x / 2^k % 2 = 1`:
  bit `k` of a two's-complement integer is `(x / 2^k) % 2` with floor
  division, which is what the Euclidean `/` and `%` compute here.
* `x >> k` on the non-negative values occurring in the source is
  `x / 2^k`; `x << k` is `x * 2^k`.
* `(high << 8) | low` where `low` comes from a `Uint8Array` (hence is
  below 256) is rendered as `high * 256 + low`: the operands occupy
  disjoint bit ranges, so `|` is addition.  Likewise the flag byte of
  `getPSW` (a `|` accumulation of the distinct single-bit constants
  0x80, 0x40, 0x10, 0x04, 0x02, 0x01) is a sum of those bits.
* `Uint8Array` stores truncate to 8 bits, hence the `% 256` on the value
  stored by `writeByte` and by the I/O-port store of `OUT`.
Memory and the I/O ports are total functions `Nat → Nat`; reads apply the
same index masking as the source (`address & 0xFFFF`).
-/

/-- The register file of `CPU8085`: seven 8-bit registers and the two
16-bit pointers, exactly the fields of `this.registers`. -/
structure Registers where
  A : Nat
  B : Nat
  C : Nat
  D : Nat
  E : Nat
  H : Nat
  L : Nat
  SP : Nat
  PC : Nat

/-- The five status flags of `this.flags`. -/
structure Flags where
  S : Bool
  Z : Bool
  AC : Bool
  P : Bool
  CY : Bool

/-- The mutable processor aggregate: registers, flags, 64K memory, the
halted flag and the 256 I/O ports. -/
structure CPU8085 where
  registers : Registers
  flags : Flags
  memory : Nat → Nat
  halted : Bool
  ioPorts : Nat → Nat

/-- `readByte`: `this.memory[address & 0xFFFF]`. -/
def readByte (s : CPU8085) (address : Nat) : Nat :=
  s.memory (address % 65536)

/-- `writeByte`: `this.memory[address & 0xFFFF] = value & 0xFF`. -/
def writeByte (s : CPU8085) (address value : Nat) : CPU8085 :=
  { s with memory := fun a => if a = address % 65536 then value % 256 else s.memory a }

/-- `readWord`: low byte at `address`, high byte at `address + 1`,
combined as `(high << 8) | low`. -/
def readWord (s : CPU8085) (address : Nat) : Nat :=
  readByte s (address + 1) * 256 + readByte s address

/-- `writeWord`: low byte to `address`, `(value >> 8) & 0xFF` to
`address + 1`. -/
def writeWord (s : CPU8085) (address value : Nat) : CPU8085 :=
  writeByte (writeByte s address (value % 256)) (address + 1) (value / 256 % 256)

/-- `getHL`: `(H << 8) | L`. -/
def getHL (s : CPU8085) : Nat :=
  s.registers.H * 256 + s.registers.L

/-- `setHL`: `H = (value >> 8) & 0xFF; L = value & 0xFF`. -/
def setHL (s : CPU8085) (value : Nat) : CPU8085 :=
  { s with registers := { s.registers with H := value / 256 % 256, L := value % 256 } }

/-- `getBC`: `(B << 8) | C`. -/
def getBC (s : CPU8085) : Nat :=
  s.registers.B * 256 + s.registers.C

/-- `setBC`: `B = (value >> 8) & 0xFF; C = value & 0xFF`. -/
def setBC (s : CPU8085) (value : Nat) : CPU8085 :=
  { s with registers := { s.registers with B := value / 256 % 256, C := value % 256 } }

/-- `getDE`: `(D << 8) | E`. -/
def getDE (s : CPU8085) : Nat :=
  s.registers.D * 256 + s.registers.E

/-- `setDE`: `D = (value >> 8) & 0xFF; E = value & 0xFF`. -/
def setDE (s : CPU8085) (value : Nat) : CPU8085 :=
  { s with registers := { s.registers with D := value / 256 % 256, E := value % 256 } }

/-- Assignment `this.registers.A = v`. -/
def setA (s : CPU8085) (v : Nat) : CPU8085 :=
  { s with registers := { s.registers with A := v } }

/-- Assignment `this.registers.B = v`. -/
def setB (s : CPU8085) (v : Nat) : CPU8085 :=
  { s with registers := { s.registers with B := v } }

/-- Assignment `this.registers.C = v`. -/
def setC (s : CPU8085) (v : Nat) : CPU8085 :=
  { s with registers := { s.registers with C := v } }

/-- Assignment `this.registers.D = v`. -/
def setD (s : CPU8085) (v : Nat) : CPU8085 :=
  { s with registers := { s.registers with D := v } }

/-- Assignment `this.registers.E = v`. -/
def setE (s : CPU8085) (v : Nat) : CPU8085 :=
  { s with registers := { s.registers with E := v } }

/-- Assignment `this.registers.H = v`. -/
def setH (s : CPU8085) (v : Nat) : CPU8085 :=
  { s with registers := { s.registers with H := v } }

/-- Assignment `this.registers.L = v`. -/
def setL (s : CPU8085) (v : Nat) : CPU8085 :=
  { s with registers := { s.registers with L := v } }

/-- Assignment `this.registers.SP = v`. -/
def setSP (s : CPU8085) (v : Nat) : CPU8085 :=
  { s with registers := { s.registers with SP := v } }

/-- Assignment `this.registers.PC = v`. -/
def setPC (s : CPU8085) (v : Nat) : CPU8085 :=
  { s with registers := { s.registers with PC := v } }

/-- The recurring statement `this.registers.PC = (this.registers.PC + n) & 0xFFFF`. -/
def addToPC (s : CPU8085) (n : Nat) : CPU8085 :=
  setPC s ((s.registers.PC + n) % 65536)

/-- Assignment of a whole flag record to `this.flags`. -/
def setFlags (s : CPU8085) (f : Flags) : CPU8085 :=
  { s with flags := f }

/-- The parity loop of `updateZSPFlags`: count the set bits among bits
0..7 of `val` (`(val >> i) & 1` for `i < 8`). -/
def parityCount (val : Nat) : Nat :=
  (List.range 8).countP fun i => decide (val / 2 ^ i % 2 = 1)

/-- `updateZSPFlags(value)`: from `val = value & 0xFF`, set
`S = (val & 0x80) !== 0`, `Z = val === 0`, and `P` to whether the count
of set bits is even; `AC` and `CY` are left as they are. -/
def updateZSPFlags (f : Flags) (value : Nat) : Flags :=
  let val := value % 256
  { f with
    S := decide (val / 128 % 2 = 1)
    Z := decide (val = 0)
    P := decide (parityCount val % 2 = 0) }

/-- `add8bit(val1, val2, carryIn)`: returns the masked result together
with the flag record the call leaves in `this.flags` (`CY`, `AC` set
here, `S`/`Z`/`P` via `updateZSPFlags`; every field is overwritten). -/
def add8bit (val1 val2 : Nat) (carryIn : Bool) : Nat × Flags :=
  let c := if carryIn then 1 else 0
  let unmaskedResult := val1 % 256 + val2 % 256 + c
  let result := unmaskedResult % 256
  let cy := decide (unmaskedResult > 255)
  let ac := decide ((val1 % 16 + val2 % 16 + c) / 16 % 2 = 1)
  (result, updateZSPFlags { S := false, Z := false, AC := ac, P := false, CY := cy } result)

/-- `sub8bit(val1, val2, borrowIn)`: the borrow mirror of `add8bit`.  The
unmasked difference can be negative, so it lives in `Int`; `CY` is the
borrow-out (`unmaskedResult < 0`), `AC` the borrow out of bit 3. -/
def sub8bit (val1 val2 : Nat) (borrowIn : Bool) : Nat × Flags :=
  let b : Int := if borrowIn then 1 else 0
  let unmaskedResult : Int := (val1 % 256 : Nat) - (val2 % 256 : Nat) - b
  let result : Nat := (unmaskedResult % 256).toNat
  let cy := decide (unmaskedResult < 0)
  let ac := decide ((((val1 % 16 : Nat) : Int) - ((val2 % 16 : Nat) : Int) - b) / 16 % 2 = 1)
  (result, updateZSPFlags { S := false, Z := false, AC := ac, P := false, CY := cy } result)

/-- `dad(val)`: 16-bit add into HL; `CY = result > 0xFFFF`, HL gets the
masked sum. -/
def dad (s : CPU8085) (val : Nat) : CPU8085 :=
  let hl := getHL s
  let result := hl + val
  let s := setFlags s { s.flags with CY := decide (result > 65535) }
  setHL s (result % 65536)

/-- `pushWord(value)`: decrement SP (mod 65536), store the high byte,
decrement again, store the low byte. -/
def pushWord (s : CPU8085) (value : Nat) : CPU8085 :=
  let s := setSP s ((((s.registers.SP : Int) - 1) % 65536).toNat)
  let s := writeByte s s.registers.SP (value / 256 % 256)
  let s := setSP s ((((s.registers.SP : Int) - 1) % 65536).toNat)
  writeByte s s.registers.SP (value % 256)

/-- `popWord()`: read the low byte at SP, increment, read the high byte,
increment; returns `(high << 8) | low` and the final state. -/
def popWord (s : CPU8085) : Nat × CPU8085 :=
  let low := readByte s s.registers.SP
  let s := setSP s ((s.registers.SP + 1) % 65536)
  let high := readByte s s.registers.SP
  let s := setSP s ((s.registers.SP + 1) % 65536)
  (high * 256 + low, s)

/-- The flag byte assembled by `getPSW`: bit 7 = S, bit 6 = Z, bit 4 = AC,
bit 2 = P, bit 1 always set, bit 0 = CY (bits 5 and 3 always clear). -/
def pswByte (f : Flags) : Nat :=
  (if f.S then 128 else 0) + (if f.Z then 64 else 0) + (if f.AC then 16 else 0) +
    (if f.P then 4 else 0) + 2 + (if f.CY then 1 else 0)

/-- `getPSW()`: `(A << 8) | pswFlags`. -/
def getPSW (s : CPU8085) : Nat :=
  s.registers.A * 256 + pswByte s.flags

/-- `setPSW(value)`: `A = (value >> 8) & 0xFF`, then each flag from its
bit of `value & 0xFF`. -/
def setPSW (s : CPU8085) (value : Nat) : CPU8085 :=
  let pswFlags := value % 256
  { s with
    registers := { s.registers with A := value / 256 % 256 }
    flags :=
      { S := decide (pswFlags / 128 % 2 = 1)
        Z := decide (pswFlags / 64 % 2 = 1)
        AC := decide (pswFlags / 16 % 2 = 1)
        P := decide (pswFlags / 4 % 2 = 1)
        CY := decide (pswFlags % 2 = 1) } }

/-- `reset()`: registers to zero except `SP = 0xFFFE`, `PC = 0x0000`;
flags to `S=0, Z=1, AC=0, P=1, CY=0`; halted cleared; the memory and the
I/O ports persist. -/
def reset (s : CPU8085) : CPU8085 :=
  { s with
    registers := { A := 0, B := 0, C := 0, D := 0, E := 0, H := 0, L := 0, SP := 0xFFFE, PC := 0 }
    flags := { S := false, Z := true, AC := false, P := true, CY := false }
    halted := false }

set_option maxHeartbeats 3200000 in
/-- `executeInstruction(opcode)`: the full dispatch switch of the source,
one arm per `case` label; every byte value without a `case` in the source
falls to the `default` arm, which sets `halted` (the source's
"Halt on unknown instruction"). -/
def executeInstruction (s : CPU8085) (opcode : Nat) : CPU8085 :=
  match opcode with
  | 0x00 => s
  | 0x01 => addToPC (setBC s (readWord s s.registers.PC)) 2
  | 0x11 => addToPC (setDE s (readWord s s.registers.PC)) 2
  | 0x21 => addToPC (setHL s (readWord s s.registers.PC)) 2
  | 0x31 => addToPC (setSP s (readWord s s.registers.PC)) 2
  | 0x32 =>
    let tempAddr := readWord s s.registers.PC
    addToPC (writeByte s tempAddr s.registers.A) 2
  | 0x3A =>
    let tempAddr := readWord s s.registers.PC
    addToPC (setA s (readByte s tempAddr)) 2
  | 0x06 => addToPC (setB s (readByte s s.registers.PC)) 1
  | 0x0E => addToPC (setC s (readByte s s.registers.PC)) 1
  | 0x16 => addToPC (setD s (readByte s s.registers.PC)) 1
  | 0x1E => addToPC (setE s (readByte s s.registers.PC)) 1
  | 0x26 => addToPC (setH s (readByte s s.registers.PC)) 1
  | 0x2E => addToPC (setL s (readByte s s.registers.PC)) 1
  | 0x36 => addToPC (writeByte s (getHL s) (readByte s s.registers.PC)) 1
  | 0x3E => addToPC (setA s (readByte s s.registers.PC)) 1
  | 0x40 => s
  | 0x41 => setB s s.registers.C
  | 0x42 => setB s s.registers.D
  | 0x43 => setB s s.registers.E
  | 0x44 => setB s s.registers.H
  | 0x45 => setB s s.registers.L
  | 0x46 => setB s (readByte s (getHL s))
  | 0x47 => setB s s.registers.A
  | 0x48 => setC s s.registers.B
  | 0x49 => s
  | 0x4A => setC s s.registers.D
  | 0x4B => setC s s.registers.E
  | 0x4C => setC s s.registers.H
  | 0x4D => setC s s.registers.L
  | 0x4E => setC s (readByte s (getHL s))
  | 0x4F => setC s s.registers.A
  | 0x50 => setD s s.registers.B
  | 0x51 => setD s s.registers.C
  | 0x52 => s
  | 0x53 => setD s s.registers.E
  | 0x54 => setD s s.registers.H
  | 0x55 => setD s s.registers.L
  | 0x56 => setD s (readByte s (getHL s))
  | 0x57 => setD s s.registers.A
  | 0x58 => setE s s.registers.B
  | 0x59 => setE s s.registers.C
  | 0x5A => setE s s.registers.D
  | 0x5B => s
  | 0x5C => setE s s.registers.H
  | 0x5D => setE s s.registers.L
  | 0x5E => setE s (readByte s (getHL s))
  | 0x5F => setE s s.registers.A
  | 0x60 => setH s s.registers.B
  | 0x61 => setH s s.registers.C
  | 0x62 => setH s s.registers.D
  | 0x63 => setH s s.registers.E
  | 0x64 => s
  | 0x65 => setH s s.registers.L
  | 0x66 => setH s (readByte s (getHL s))
  | 0x67 => setH s s.registers.A
  | 0x68 => setL s s.registers.B
  | 0x69 => setL s s.registers.C
  | 0x6A => setL s s.registers.D
  | 0x6B => setL s s.registers.E
  | 0x6C => setL s s.registers.H
  | 0x6D => s
  | 0x6E => setL s (readByte s (getHL s))
  | 0x6F => setL s s.registers.A
  | 0x70 => writeByte s (getHL s) s.registers.B
  | 0x71 => writeByte s (getHL s) s.registers.C
  | 0x72 => writeByte s (getHL s) s.registers.D
  | 0x73 => writeByte s (getHL s) s.registers.E
  | 0x74 => writeByte s (getHL s) s.registers.H
  | 0x75 => writeByte s (getHL s) s.registers.L
  | 0x77 => writeByte s (getHL s) s.registers.A
  | 0x78 => setA s s.registers.B
  | 0x79 => setA s s.registers.C
  | 0x7A => setA s s.registers.D
  | 0x7B => setA s s.registers.E
  | 0x7C => setA s s.registers.H
  | 0x7D => setA s s.registers.L
  | 0x7E => setA s (readByte s (getHL s))
  | 0x7F => s
  | 0x76 => { s with halted := true }
  | 0x80 => let r := add8bit s.registers.A s.registers.B false; setA (setFlags s r.2) r.1
  | 0x81 => let r := add8bit s.registers.A s.registers.C false; setA (setFlags s r.2) r.1
  | 0x82 => let r := add8bit s.registers.A s.registers.D false; setA (setFlags s r.2) r.1
  | 0x83 => let r := add8bit s.registers.A s.registers.E false; setA (setFlags s r.2) r.1
  | 0x84 => let r := add8bit s.registers.A s.registers.H false; setA (setFlags s r.2) r.1
  | 0x85 => let r := add8bit s.registers.A s.registers.L false; setA (setFlags s r.2) r.1
  | 0x86 => let r := add8bit s.registers.A (readByte s (getHL s)) false; setA (setFlags s r.2) r.1
  | 0x87 => let r := add8bit s.registers.A s.registers.A false; setA (setFlags s r.2) r.1
  | 0x88 => let r := add8bit s.registers.A s.registers.B s.flags.CY; setA (setFlags s r.2) r.1
  | 0x89 => let r := add8bit s.registers.A s.registers.C s.flags.CY; setA (setFlags s r.2) r.1
  | 0x8A => let r := add8bit s.registers.A s.registers.D s.flags.CY; setA (setFlags s r.2) r.1
  | 0x8B => let r := add8bit s.registers.A s.registers.E s.flags.CY; setA (setFlags s r.2) r.1
  | 0x8C => let r := add8bit s.registers.A s.registers.H s.flags.CY; setA (setFlags s r.2) r.1
  | 0x8D => let r := add8bit s.registers.A s.registers.L s.flags.CY; setA (setFlags s r.2) r.1
  | 0x8E => let r := add8bit s.registers.A (readByte s (getHL s)) s.flags.CY; setA (setFlags s r.2) r.1
  | 0x8F => let r := add8bit s.registers.A s.registers.A s.flags.CY; setA (setFlags s r.2) r.1
  | 0x90 => let r := sub8bit s.registers.A s.registers.B false; setA (setFlags s r.2) r.1
  | 0x91 => let r := sub8bit s.registers.A s.registers.C false; setA (setFlags s r.2) r.1
  | 0x92 => let r := sub8bit s.registers.A s.registers.D false; setA (setFlags s r.2) r.1
  | 0x93 => let r := sub8bit s.registers.A s.registers.E false; setA (setFlags s r.2) r.1
  | 0x94 => let r := sub8bit s.registers.A s.registers.H false; setA (setFlags s r.2) r.1
  | 0x95 => let r := sub8bit s.registers.A s.registers.L false; setA (setFlags s r.2) r.1
  | 0x96 => let r := sub8bit s.registers.A (readByte s (getHL s)) false; setA (setFlags s r.2) r.1
  | 0x97 => let r := sub8bit s.registers.A s.registers.A false; setA (setFlags s r.2) r.1
  | 0x98 => let r := sub8bit s.registers.A s.registers.B s.flags.CY; setA (setFlags s r.2) r.1
  | 0x99 => let r := sub8bit s.registers.A s.registers.C s.flags.CY; setA (setFlags s r.2) r.1
  | 0x9A => let r := sub8bit s.registers.A s.registers.D s.flags.CY; setA (setFlags s r.2) r.1
  | 0x9B => let r := sub8bit s.registers.A s.registers.E s.flags.CY; setA (setFlags s r.2) r.1
  | 0x9C => let r := sub8bit s.registers.A s.registers.H s.flags.CY; setA (setFlags s r.2) r.1
  | 0x9D => let r := sub8bit s.registers.A s.registers.L s.flags.CY; setA (setFlags s r.2) r.1
  | 0x9E => let r := sub8bit s.registers.A (readByte s (getHL s)) s.flags.CY; setA (setFlags s r.2) r.1
  | 0x9F => let r := sub8bit s.registers.A s.registers.A s.flags.CY; setA (setFlags s r.2) r.1
  | 0x04 =>
    let oldCY := s.flags.CY
    let r := add8bit s.registers.B 1 false
    let s := setB (setFlags s r.2) r.1
    setFlags s { s.flags with CY := oldCY }
  | 0x0C =>
    let oldCY := s.flags.CY
    let r := add8bit s.registers.C 1 false
    let s := setC (setFlags s r.2) r.1
    setFlags s { s.flags with CY := oldCY }
  | 0x14 =>
    let oldCY := s.flags.CY
    let r := add8bit s.registers.D 1 false
    let s := setD (setFlags s r.2) r.1
    setFlags s { s.flags with CY := oldCY }
  | 0x1C =>
    let oldCY := s.flags.CY
    let r := add8bit s.registers.E 1 false
    let s := setE (setFlags s r.2) r.1
    setFlags s { s.flags with CY := oldCY }
  | 0x24 =>
    let oldCY := s.flags.CY
    let r := add8bit s.registers.H 1 false
    let s := setH (setFlags s r.2) r.1
    setFlags s { s.flags with CY := oldCY }
  | 0x2C =>
    let oldCY := s.flags.CY
    let r := add8bit s.registers.L 1 false
    let s := setL (setFlags s r.2) r.1
    setFlags s { s.flags with CY := oldCY }
  | 0x34 =>
    let oldCY := s.flags.CY
    let tempVal := readByte s (getHL s)
    let r := add8bit tempVal 1 false
    let s := writeByte (setFlags s r.2) (getHL s) r.1
    setFlags s { s.flags with CY := oldCY }
  | 0x3C =>
    let oldCY := s.flags.CY
    let r := add8bit s.registers.A 1 false
    let s := setA (setFlags s r.2) r.1
    setFlags s { s.flags with CY := oldCY }
  | 0x05 =>
    let oldCY := s.flags.CY
    let r := sub8bit s.registers.B 1 false
    let s := setB (setFlags s r.2) r.1
    setFlags s { s.flags with CY := oldCY }
  | 0x0D =>
    let oldCY := s.flags.CY
    let r := sub8bit s.registers.C 1 false
    let s := setC (setFlags s r.2) r.1
    setFlags s { s.flags with CY := oldCY }
  | 0x15 =>
    let oldCY := s.flags.CY
    let r := sub8bit s.registers.D 1 false
    let s := setD (setFlags s r.2) r.1
    setFlags s { s.flags with CY := oldCY }
  | 0x1D =>
    let oldCY := s.flags.CY
    let r := sub8bit s.registers.E 1 false
    let s := setE (setFlags s r.2) r.1
    setFlags s { s.flags with CY := oldCY }
  | 0x25 =>
    let oldCY := s.flags.CY
    let r := sub8bit s.registers.H 1 false
    let s := setH (setFlags s r.2) r.1
    setFlags s { s.flags with CY := oldCY }
  | 0x2D =>
    let oldCY := s.flags.CY
    let r := sub8bit s.registers.L 1 false
    let s := setL (setFlags s r.2) r.1
    setFlags s { s.flags with CY := oldCY }
  | 0x35 =>
    let oldCY := s.flags.CY
    let tempVal := readByte s (getHL s)
    let r := sub8bit tempVal 1 false
    let s := writeByte (setFlags s r.2) (getHL s) r.1
    setFlags s { s.flags with CY := oldCY }
  | 0x3D =>
    let oldCY := s.flags.CY
    let r := sub8bit s.registers.A 1 false
    let s := setA (setFlags s r.2) r.1
    setFlags s { s.flags with CY := oldCY }
  | 0xC6 =>
    let tempVal := readByte s s.registers.PC
    let r := add8bit s.registers.A tempVal false
    addToPC (setA (setFlags s r.2) r.1) 1
  | 0xCE =>
    let tempVal := readByte s s.registers.PC
    let r := add8bit s.registers.A tempVal s.flags.CY
    addToPC (setA (setFlags s r.2) r.1) 1
  | 0xD6 =>
    let tempVal := readByte s s.registers.PC
    let r := sub8bit s.registers.A tempVal false
    addToPC (setA (setFlags s r.2) r.1) 1
  | 0xDE =>
    let tempVal := readByte s s.registers.PC
    let r := sub8bit s.registers.A tempVal s.flags.CY
    addToPC (setA (setFlags s r.2) r.1) 1
  | 0xC3 => setPC s (readWord s s.registers.PC)
  | 0xC2 =>
    let condition := !s.flags.Z
    let tempAddr := readWord s s.registers.PC
    if condition then setPC s tempAddr else addToPC s 2
  | 0xCA =>
    let condition := s.flags.Z
    let tempAddr := readWord s s.registers.PC
    if condition then setPC s tempAddr else addToPC s 2
  | 0xD2 =>
    let condition := !s.flags.CY
    let tempAddr := readWord s s.registers.PC
    if condition then setPC s tempAddr else addToPC s 2
  | 0xDA =>
    let condition := s.flags.CY
    let tempAddr := readWord s s.registers.PC
    if condition then setPC s tempAddr else addToPC s 2
  | 0xE2 =>
    let condition := !s.flags.P
    let tempAddr := readWord s s.registers.PC
    if condition then setPC s tempAddr else addToPC s 2
  | 0xEA =>
    let condition := s.flags.P
    let tempAddr := readWord s s.registers.PC
    if condition then setPC s tempAddr else addToPC s 2
  | 0xF2 =>
    let condition := !s.flags.S
    let tempAddr := readWord s s.registers.PC
    if condition then setPC s tempAddr else addToPC s 2
  | 0xFA =>
    let condition := s.flags.S
    let tempAddr := readWord s s.registers.PC
    if condition then setPC s tempAddr else addToPC s 2
  | 0xCD =>
    let tempAddr := readWord s s.registers.PC
    setPC (pushWord s ((s.registers.PC + 2) % 65536)) tempAddr
  | 0xC4 =>
    let condition := !s.flags.Z
    let tempAddr := readWord s s.registers.PC
    if condition then setPC (pushWord s ((s.registers.PC + 2) % 65536)) tempAddr
    else addToPC s 2
  | 0xCC =>
    let condition := s.flags.Z
    let tempAddr := readWord s s.registers.PC
    if condition then setPC (pushWord s ((s.registers.PC + 2) % 65536)) tempAddr
    else addToPC s 2
  | 0xD4 =>
    let condition := !s.flags.CY
    let tempAddr := readWord s s.registers.PC
    if condition then setPC (pushWord s ((s.registers.PC + 2) % 65536)) tempAddr
    else addToPC s 2
  | 0xDC =>
    let condition := s.flags.CY
    let tempAddr := readWord s s.registers.PC
    if condition then setPC (pushWord s ((s.registers.PC + 2) % 65536)) tempAddr
    else addToPC s 2
  | 0xC9 => let r := popWord s; setPC r.2 r.1
  | 0xC0 => if !s.flags.Z then (let r := popWord s; setPC r.2 r.1) else s
  | 0xC8 => if s.flags.Z then (let r := popWord s; setPC r.2 r.1) else s
  | 0xD0 => if !s.flags.CY then (let r := popWord s; setPC r.2 r.1) else s
  | 0xD8 => if s.flags.CY then (let r := popWord s; setPC r.2 r.1) else s
  | 0xC1 => let r := popWord s; setBC r.2 r.1
  | 0xD1 => let r := popWord s; setDE r.2 r.1
  | 0xE1 => let r := popWord s; setHL r.2 r.1
  | 0xF1 => let r := popWord s; setPSW r.2 r.1
  | 0xC5 => pushWord s (getBC s)
  | 0xD5 => pushWord s (getDE s)
  | 0xE5 => pushWord s (getHL s)
  | 0xF5 => pushWord s (getPSW s)
  | 0xDB =>
    let tempVal := readByte s s.registers.PC
    addToPC (setA s (s.ioPorts tempVal)) 1
  | 0xD3 =>
    let tempVal := readByte s s.registers.PC
    let s := { s with ioPorts := fun p => if p = tempVal then s.registers.A % 256 else s.ioPorts p }
    addToPC s 1
  | 0xEB =>
    let tempH := s.registers.H
    let tempL := s.registers.L
    setE (setD (setL (setH s s.registers.D) s.registers.E) tempH) tempL
  | 0xE3 =>
    let lFromStack := readByte s s.registers.SP
    let hFromStack := readByte s (s.registers.SP + 1)
    let s := writeByte s s.registers.SP s.registers.L
    let s := writeByte s (s.registers.SP + 1) s.registers.H
    setH (setL s lFromStack) hFromStack
  | 0xF9 => setSP s (getHL s)
  | 0xE9 => setPC s (getHL s)
  | 0x07 =>
    let msb := s.registers.A / 128 % 2
    let s := setA s ((s.registers.A * 2 + msb) % 256)
    setFlags s { s.flags with CY := decide (msb = 1) }
  | 0x0F =>
    let lsb := s.registers.A % 2
    let s := setA s ((s.registers.A / 2 + lsb * 128) % 256)
    setFlags s { s.flags with CY := decide (lsb = 1) }
  | 0x17 =>
    let oldCY := if s.flags.CY then 1 else 0
    let s := setFlags s { s.flags with CY := decide (s.registers.A / 128 % 2 = 1) }
    setA s ((s.registers.A * 2 + oldCY) % 256)
  | 0x1F =>
    let oldCY := if s.flags.CY then 1 else 0
    let s := setFlags s { s.flags with CY := decide (s.registers.A % 2 = 1) }
    setA s ((s.registers.A / 2 + oldCY * 128) % 256)
  | 0x27 =>
    let a := s.registers.A
    let lsn := a % 16
    let msn := a / 16
    let oldCY := s.flags.CY
    let correction1 := if s.flags.AC || decide (lsn > 9) then 0 + 6 else 0
    let secondCond := s.flags.CY || decide (msn > 9) || (decide (msn ≥ 9) && decide (lsn > 9))
    let correction2 := if secondCond then correction1 + 96 else correction1
    let s := if secondCond then setFlags s { s.flags with CY := true } else s
    let r := add8bit a correction2 false
    let s := setA (setFlags s r.2) r.1
    setFlags s { s.flags with CY := oldCY || s.flags.CY }
  | 0x2F => setA s (((-(s.registers.A : Int) - 1) % 256).toNat)
  | 0x37 => setFlags s { s.flags with CY := true }
  | 0x3F => setFlags s { s.flags with CY := !s.flags.CY }
  | 0xA0 =>
    let s := setA s (s.registers.A &&& s.registers.B)
    let s := setFlags s (updateZSPFlags s.flags s.registers.A)
    setFlags s { s.flags with CY := false, AC := false }
  | 0xA1 =>
    let s := setA s (s.registers.A &&& s.registers.C)
    let s := setFlags s (updateZSPFlags s.flags s.registers.A)
    setFlags s { s.flags with CY := false, AC := false }
  | 0xA6 =>
    let s := setA s (s.registers.A &&& readByte s (getHL s))
    let s := setFlags s (updateZSPFlags s.flags s.registers.A)
    setFlags s { s.flags with CY := false, AC := false }
  | 0xA7 =>
    let s := setA s (s.registers.A &&& s.registers.A)
    let s := setFlags s (updateZSPFlags s.flags s.registers.A)
    setFlags s { s.flags with CY := false, AC := false }
  | 0xE6 =>
    let tempVal := readByte s s.registers.PC
    let s := setA s (s.registers.A &&& tempVal)
    let s := setFlags s (updateZSPFlags s.flags s.registers.A)
    addToPC (setFlags s { s.flags with CY := false, AC := false }) 1
  | 0xA8 =>
    let s := setA s (s.registers.A ^^^ s.registers.B)
    let s := setFlags s (updateZSPFlags s.flags s.registers.A)
    setFlags s { s.flags with CY := false, AC := false }
  | 0xAE =>
    let s := setA s (s.registers.A ^^^ readByte s (getHL s))
    let s := setFlags s (updateZSPFlags s.flags s.registers.A)
    setFlags s { s.flags with CY := false, AC := false }
  | 0xAF =>
    let s := setA s (s.registers.A ^^^ s.registers.A)
    let s := setFlags s (updateZSPFlags s.flags s.registers.A)
    setFlags s { s.flags with CY := false, AC := false }
  | 0xEE =>
    let tempVal := readByte s s.registers.PC
    let s := setA s (s.registers.A ^^^ tempVal)
    let s := setFlags s (updateZSPFlags s.flags s.registers.A)
    addToPC (setFlags s { s.flags with CY := false, AC := false }) 1
  | 0xB0 =>
    let s := setA s (s.registers.A ||| s.registers.B)
    let s := setFlags s (updateZSPFlags s.flags s.registers.A)
    setFlags s { s.flags with CY := false, AC := false }
  | 0xB6 =>
    let s := setA s (s.registers.A ||| readByte s (getHL s))
    let s := setFlags s (updateZSPFlags s.flags s.registers.A)
    setFlags s { s.flags with CY := false, AC := false }
  | 0xB7 =>
    let s := setA s (s.registers.A ||| s.registers.A)
    let s := setFlags s (updateZSPFlags s.flags s.registers.A)
    setFlags s { s.flags with CY := false, AC := false }
  | 0xF6 =>
    let tempVal := readByte s s.registers.PC
    let s := setA s (s.registers.A ||| tempVal)
    let s := setFlags s (updateZSPFlags s.flags s.registers.A)
    addToPC (setFlags s { s.flags with CY := false, AC := false }) 1
  | 0xB8 => setFlags s (sub8bit s.registers.A s.registers.B false).2
  | 0xBE => setFlags s (sub8bit s.registers.A (readByte s (getHL s)) false).2
  | 0xBF => setFlags s (sub8bit s.registers.A s.registers.A false).2
  | 0xFE =>
    let tempVal := readByte s s.registers.PC
    addToPC (setFlags s (sub8bit s.registers.A tempVal false).2) 1
  | 0x09 => dad s (getBC s)
  | 0x19 => dad s (getDE s)
  | 0x29 => dad s (getHL s)
  | 0x39 => dad s s.registers.SP
  | 0x03 => setBC s ((getBC s + 1) % 65536)
  | 0x0B => setBC s ((((getBC s : Int) - 1) % 65536).toNat)
  | 0x13 => setDE s ((getDE s + 1) % 65536)
  | 0x1B => setDE s ((((getDE s : Int) - 1) % 65536).toNat)
  | 0x23 => setHL s ((getHL s + 1) % 65536)
  | 0x2B => setHL s ((((getHL s : Int) - 1) % 65536).toNat)
  | 0x33 => setSP s ((s.registers.SP + 1) % 65536)
  | 0x3B => setSP s ((((s.registers.SP : Int) - 1) % 65536).toNat)
  | 0x02 => writeByte s (getBC s) s.registers.A
  | 0x12 => writeByte s (getDE s) s.registers.A
  | 0x0A => setA s (readByte s (getBC s))
  | 0x1A => setA s (readByte s (getDE s))
  | 0x22 =>
    let tempAddr := readWord s s.registers.PC
    addToPC (writeWord s tempAddr (getHL s)) 2
  | 0x2A =>
    let tempAddr := readWord s s.registers.PC
    addToPC (setHL s (readWord s tempAddr)) 2
  | 0xFB => s
  | 0xF3 => s
  | 0x20 => s
  | 0x30 => s
  | 0xC7 => setPC (pushWord s s.registers.PC) 0x0000
  | 0xCF => setPC (pushWord s s.registers.PC) 0x0008
  | 0xD7 => setPC (pushWord s s.registers.PC) 0x0010
  | 0xDF => setPC (pushWord s s.registers.PC) 0x0018
  | 0xE7 => setPC (pushWord s s.registers.PC) 0x0020
  | 0xEF => setPC (pushWord s s.registers.PC) 0x0028
  | 0xF7 => setPC (pushWord s s.registers.PC) 0x0030
  | 0xFF => setPC (pushWord s s.registers.PC) 0x0038
  | _ => { s with halted := true }

/-- `step()`: no-op while halted; otherwise fetch the byte at PC, advance
PC by one (mod 65536), then dispatch. -/
def step (s : CPU8085) : CPU8085 :=
  if s.halted then s
  else
    let opcode := readByte s s.registers.PC
    executeInstruction (addToPC s 1) opcode

/-- The state built by `new CPU8085()` (zero-filled memory and ports,
then `reset()`), with every memory byte then set to `op` via `writeByte`
semantics (stores truncate to 8 bits).  Used as a concrete program state. -/
def freshWith (op : Nat) : CPU8085 :=
  { registers := { A := 0, B := 0, C := 0, D := 0, E := 0, H := 0, L := 0, SP := 0xFFFE, PC := 0 }
    flags := { S := false, Z := true, AC := false, P := true, CY := false }
    memory := fun _ => op % 256
    halted := false
    ioPorts := fun _ => 0 }

/-- A processor that has already halted (it executed HLT). -/
def haltedUnit : CPU8085 :=
  { freshWith 0x76 with halted := true }

/-- A fresh processor about to execute DAA (opcode 0x27) with the Carry
flag set on entry. -/
def daaCarryUnit : CPU8085 :=
  { freshWith 0x27 with flags := { S := false, Z := true, AC := false, P := true, CY := true } }

/-- The increment/decrement opcodes named by claim C2: INR r/M and
DCR r/M. -/
def incDecOpcodes : List Nat :=
  [0x04, 0x0C, 0x14, 0x1C, 0x24, 0x2C, 0x34, 0x3C,
   0x05, 0x0D, 0x15, 0x1D, 0x25, 0x2D, 0x35, 0x3D]

/-- Claim-side reference for C2: the flag record `add8(x, 1, false)`
(respectively `sub8(x, 1, false)`) produces for the operand value `x`
targeted by the given increment (respectively decrement) opcode. -/
def incDecReference (s : CPU8085) (op : Nat) : Flags :=
  match op with
  | 0x04 => (add8bit s.registers.B 1 false).2
  | 0x0C => (add8bit s.registers.C 1 false).2
  | 0x14 => (add8bit s.registers.D 1 false).2
  | 0x1C => (add8bit s.registers.E 1 false).2
  | 0x24 => (add8bit s.registers.H 1 false).2
  | 0x2C => (add8bit s.registers.L 1 false).2
  | 0x34 => (add8bit (readByte s (getHL s)) 1 false).2
  | 0x3C => (add8bit s.registers.A 1 false).2
  | 0x05 => (sub8bit s.registers.B 1 false).2
  | 0x0D => (sub8bit s.registers.C 1 false).2
  | 0x15 => (sub8bit s.registers.D 1 false).2
  | 0x1D => (sub8bit s.registers.E 1 false).2
  | 0x25 => (sub8bit s.registers.H 1 false).2
  | 0x2D => (sub8bit s.registers.L 1 false).2
  | 0x35 => (sub8bit (readByte s (getHL s)) 1 false).2
  | 0x3D => (sub8bit s.registers.A 1 false).2
  | _ => s.flags

/-- The implemented compare opcodes named by claim C10: CMP B, CMP M,
CMP A and CPI. -/
def cmpOpcodes : List Nat := [0xB8, 0xBE, 0xBF, 0xFE]

/-- Claim-side operand for C10: the value each compare opcode compares
against the accumulator (for CPI, the immediate byte following the
opcode). -/
def cmpOperand (s : CPU8085) (op : Nat) : Nat :=
  match op with
  | 0xB8 => s.registers.B
  | 0xBE => readByte s (getHL s)
  | 0xBF => s.registers.A
  | 0xFE => readByte s ((s.registers.PC + 1) % 65536)
  | _ => 0

/-- The BCD correction byte the DAA arm (case 0x27) passes to `add8bit`:
6 for the low nibble when AC is set or the low nibble exceeds 9, plus
0x60 for the high nibble when CY is set, the high nibble exceeds 9, or
the high nibble is 9 with a low nibble above 9. -/
def daaCorrection (t : CPU8085) : Nat :=
  let a := t.registers.A
  let lsn := a % 16
  let msn := a / 16
  let correction1 := if t.flags.AC || decide (lsn > 9) then 0 + 6 else 0
  let secondCond := t.flags.CY || decide (msn > 9) || (decide (msn ≥ 9) && decide (lsn > 9))
  if secondCond then correction1 + 96 else correction1

/-- C1: for all 8-bit `a`, `b`, `add8bit a b false` returns
`(a + b) & 0xFF`, sets Carry iff `a + b > 255`, sets Auxiliary-Carry iff
the low-nibble sum reaches 16, sets Zero iff the masked result is 0, sets
Sign iff bit 7 of the masked result is set, and sets Parity iff the
masked result has an even number of set bits. -/
theorem c1_add8_flag_spec (a b : Nat) (ha : a < 256) (hb : b < 256) :
    (add8bit a b false).1 = (a + b) % 256 ∧
    ((add8bit a b false).2.CY = true ↔ 255 < a + b) ∧
    ((add8bit a b false).2.AC = true ↔ 16 ≤ a % 16 + b % 16) ∧
    ((add8bit a b false).2.Z = true ↔ (a + b) % 256 = 0) ∧
    ((add8bit a b false).2.S = true ↔ Nat.testBit ((a + b) % 256) 7) ∧
    ((add8bit a b false).2.P = true ↔
      Even ((List.range 8).countP fun i => Nat.testBit ((a + b) % 256) i)) := by
  have hma : a % 256 = a := Nat.mod_eq_of_lt ha
  have hmb : b % 256 = b := Nat.mod_eq_of_lt hb
  have hdup : (a + b) % 256 % 256 = (a + b) % 256 := Nat.mod_mod_of_dvd _ dvd_rfl
  have hcount : ∀ v : Nat,
      ((List.range 8).countP fun i => Nat.testBit v i) =
        (List.range 8).countP fun i => decide (v / 2 ^ i % 2 = 1) := by
    intro v
    refine List.countP_congr ?_
    intro i _
    rw [Nat.testBit_to_div_mod]
  refine ⟨?_, ?_, ?_, ?_, ?_, ?_⟩
  · simp [add8bit, hma, hmb]
  · simp [add8bit, updateZSPFlags, hma, hmb]
  · simp only [add8bit, updateZSPFlags, decide_eq_true_eq, Bool.false_eq_true, if_false,
      Nat.add_zero]
    omega
  · simp [add8bit, updateZSPFlags, hma, hmb, hdup]
  · simp [add8bit, updateZSPFlags, hma, hmb, hdup, Nat.testBit_to_div_mod]
  · simp [add8bit, updateZSPFlags, parityCount, hma, hmb, hdup, hcount, Nat.even_iff]

/-- Witness for C1 at `a = 3`, `b = 250`. -/
theorem c1_add8_flag_spec_witness : (add8bit 3 250 false).1 = (3 + 250) % 256 :=
  (c1_add8_flag_spec 3 250 (by decide) (by decide)).1

/-- C6: `reset` zeroes A, B, C, D, E, H, L, sets SP to 0xFFFE and PC to
0x0000, sets the flags to S=0, Z=1, AC=0, P=1, CY=0, clears halted, and
leaves every byte of memory and of the I/O ports exactly as it was. -/
theorem c6_reset_spec (s : CPU8085) :
    (reset s).registers.A = 0 ∧ (reset s).registers.B = 0 ∧ (reset s).registers.C = 0 ∧
    (reset s).registers.D = 0 ∧ (reset s).registers.E = 0 ∧ (reset s).registers.H = 0 ∧
    (reset s).registers.L = 0 ∧ (reset s).registers.SP = 0xFFFE ∧
    (reset s).registers.PC = 0 ∧
    (reset s).flags.S = false ∧ (reset s).flags.Z = true ∧ (reset s).flags.AC = false ∧
    (reset s).flags.P = true ∧ (reset s).flags.CY = false ∧ (reset s).halted = false ∧
    (∀ addr, (reset s).memory addr = s.memory addr) ∧
    (∀ port, (reset s).ioPorts port = s.ioPorts port) :=
  ⟨rfl, rfl, rfl, rfl, rfl, rfl, rfl, rfl, rfl, rfl, rfl, rfl, rfl, rfl, rfl,
   fun _ => rfl, fun _ => rfl⟩

/-- C7: while halted, `step()` is the identity on the whole processor
state (registers, flags, memory, ports and the halted flag). -/
theorem c7_step_halted_noop (s : CPU8085) (h : s.halted = true) : step s = s := by
  simp [step, h]

/-- Witness for C7 on a concrete halted processor. -/
theorem c7_step_halted_noop_witness : step haltedUnit = haltedUnit :=
  c7_step_halted_noop haltedUnit rfl

set_option maxHeartbeats 1600000 in
/-- C2: for every non-halted state whose next opcode is one of the
increment/decrement opcodes (INR r/M, DCR r/M), `step()` leaves the Carry
flag exactly as it was, while Sign/Zero/Auxiliary-Carry/Parity are
exactly the flags `add8(x, 1, false)` (respectively `sub8(x, 1, false)`)
produces for the operand value `x`. -/
theorem c2_incdec_preserves_carry (s : CPU8085) (op : Nat) (hh : s.halted = false)
    (hop : op ∈ incDecOpcodes) (hmem : readByte s s.registers.PC = op) :
    (step s).flags.CY = s.flags.CY ∧
    (step s).flags.S = (incDecReference s op).S ∧
    (step s).flags.Z = (incDecReference s op).Z ∧
    (step s).flags.AC = (incDecReference s op).AC ∧
    (step s).flags.P = (incDecReference s op).P := by
  simp only [incDecOpcodes] at hop
  fin_cases hop <;>
  · simp only [step, hh, Bool.false_eq_true, if_false]
    rw [hmem]
    exact ⟨rfl, rfl, rfl, rfl, rfl⟩

/-- Witness for C2: INR B (opcode 0x04) on a concrete fresh state leaves
Carry unchanged. -/
theorem c2_incdec_preserves_carry_witness :
    (step (freshWith 0x04)).flags.CY = (freshWith 0x04).flags.CY :=
  (c2_incdec_preserves_carry (freshWith 0x04) 0x04 rfl (by decide) rfl).1

/-- C3 (code-bug evidence): each byte the application's own instruction
table lists as a NOP alias besides 0x00 (0x08, 0x18, 0x28, 0x38, 0xCB,
0xD9, 0xDD, 0xED, 0xFD) has no case in `executeInstruction` and falls
into the default arm, so a single `step()` on a fresh non-halted
processor sets `halted` to true instead of executing as a no-op. -/
theorem c3_nop_alias_bytes_halt :
    (freshWith 0x08).halted = false ∧
    (step (freshWith 0x08)).halted = true ∧
    (step (freshWith 0x18)).halted = true ∧
    (step (freshWith 0x28)).halted = true ∧
    (step (freshWith 0x38)).halted = true ∧
    (step (freshWith 0xCB)).halted = true ∧
    (step (freshWith 0xD9)).halted = true ∧
    (step (freshWith 0xDD)).halted = true ∧
    (step (freshWith 0xED)).halted = true ∧
    (step (freshWith 0xFD)).halted = true :=
  ⟨rfl, rfl, rfl, rfl, rfl, rfl, rfl, rfl, rfl, rfl⟩

/-- C4 (code-bug evidence): the parity and sign conditional call/return
opcodes (CPO 0xE4, CPE 0xEC, CP 0xF4, CM 0xFC, RPO 0xE0, RPE 0xE8,
RP 0xF0, RM 0xF8) have no case in `executeInstruction` and fall into the
default arm, so a single `step()` on a fresh non-halted processor halts
instead of conditionally branching. -/
theorem c4_parity_sign_conditionals_halt :
    (freshWith 0xEC).halted = false ∧
    (step (freshWith 0xE4)).halted = true ∧
    (step (freshWith 0xEC)).halted = true ∧
    (step (freshWith 0xF4)).halted = true ∧
    (step (freshWith 0xFC)).halted = true ∧
    (step (freshWith 0xE0)).halted = true ∧
    (step (freshWith 0xE8)).halted = true ∧
    (step (freshWith 0xF0)).halted = true ∧
    (step (freshWith 0xF8)).halted = true :=
  ⟨rfl, rfl, rfl, rfl, rfl, rfl, rfl, rfl, rfl⟩

set_option maxRecDepth 16384 in
/-- The Carry flag after the DAA arm: the saved entry Carry ORed with the
Carry the correction addition produces. -/
theorem daa_carry_shape (t : CPU8085) :
    (executeInstruction t 0x27).flags.CY =
      (t.flags.CY || (add8bit t.registers.A (daaCorrection t) false).2.CY) :=
  rfl

set_option maxRecDepth 16384 in
/-- C9: executing DAA (opcode 0x27) with the Carry flag set on entry
leaves the Carry flag set on exit (the final assignment ORs the saved
entry Carry into the result). -/
theorem c9_daa_preserves_set_carry (s : CPU8085) (hh : s.halted = false)
    (hmem : readByte s s.registers.PC = 0x27) (hcy : s.flags.CY = true) :
    (step s).flags.CY = true := by
  simp only [step, hh, Bool.false_eq_true, if_false]
  rw [hmem, daa_carry_shape]
  have h2 : (addToPC s 1).flags.CY = true := hcy
  rw [h2, Bool.true_or]

/-- Witness for C9 on a concrete fresh state with Carry set. -/
theorem c9_daa_preserves_set_carry_witness : (step daaCarryUnit).flags.CY = true :=
  c9_daa_preserves_set_carry daaCarryUnit rfl rfl rfl

set_option maxHeartbeats 800000 in
/-- C10: each implemented compare opcode (CMP B, CMP M, CMP A, CPI) sets
the five flags exactly as `sub8(A, operand, false)` would, discards the
subtraction result, and changes nothing else: the accumulator, the other
registers, SP, memory and the I/O ports are untouched, and PC advances
only past the instruction (one extra byte for CPI's immediate). -/
theorem c10_cmp_discards_result (s : CPU8085) (op : Nat) (hh : s.halted = false)
    (hop : op ∈ cmpOpcodes) (hmem : readByte s s.registers.PC = op) :
    (step s).flags = (sub8bit s.registers.A (cmpOperand s op) false).2 ∧
    (step s).registers.A = s.registers.A ∧
    (step s).registers.B = s.registers.B ∧
    (step s).registers.C = s.registers.C ∧
    (step s).registers.D = s.registers.D ∧
    (step s).registers.E = s.registers.E ∧
    (step s).registers.H = s.registers.H ∧
    (step s).registers.L = s.registers.L ∧
    (step s).registers.SP = s.registers.SP ∧
    (step s).memory = s.memory ∧
    (step s).ioPorts = s.ioPorts ∧
    (step s).registers.PC = (s.registers.PC + (if op = 0xFE then 2 else 1)) % 65536 := by
  simp only [cmpOpcodes] at hop
  fin_cases hop
  · simp only [step, hh, Bool.false_eq_true, if_false]
    rw [hmem]
    exact ⟨rfl, rfl, rfl, rfl, rfl, rfl, rfl, rfl, rfl, rfl, rfl, rfl⟩
  · simp only [step, hh, Bool.false_eq_true, if_false]
    rw [hmem]
    exact ⟨rfl, rfl, rfl, rfl, rfl, rfl, rfl, rfl, rfl, rfl, rfl, rfl⟩
  · simp only [step, hh, Bool.false_eq_true, if_false]
    rw [hmem]
    exact ⟨rfl, rfl, rfl, rfl, rfl, rfl, rfl, rfl, rfl, rfl, rfl, rfl⟩
  · simp only [step, hh, Bool.false_eq_true, if_false]
    rw [hmem]
    refine ⟨rfl, rfl, rfl, rfl, rfl, rfl, rfl, rfl, rfl, rfl, rfl, ?_⟩
    show ((s.registers.PC + 1) % 65536 + 1) % 65536 = (s.registers.PC + 2) % 65536
    omega

/-- Witness for C10: CMP B (opcode 0xB8) on a concrete fresh state sets
the flags of `sub8(A, B, false)`. -/
theorem c10_cmp_discards_result_witness :
    (step (freshWith 0xB8)).flags =
      (sub8bit (freshWith 0xB8).registers.A
        (cmpOperand (freshWith 0xB8) 0xB8) false).2 :=
  (c10_cmp_discards_result (freshWith 0xB8) 0xB8 rfl (by decide) rfl).1

/-- C5: for any 16-bit value and any starting stack pointer that does not
wrap during the sequence, `pushWord` then `popWord` returns the value and
restores SP; immediately after the push, memory at SP0-1 holds the high
byte and memory at SP0-2 the low byte. -/
theorem c5_push_pop_roundtrip (s : CPU8085) (v : Nat) (hv : v < 65536)
    (hlo : 2 ≤ s.registers.SP) (hhi : s.registers.SP < 65536) :
    (popWord (pushWord s v)).1 = v ∧
    (popWord (pushWord s v)).2.registers.SP = s.registers.SP ∧
    readByte (pushWord s v) (s.registers.SP - 1) = v / 256 ∧
    readByte (pushWord s v) (s.registers.SP - 2) = v % 256 := by
  obtain ⟨⟨A, B, C, D, E, H, L, SP, PC⟩, f, mem, hl, ports⟩ := s
  have hlo' : 2 ≤ SP := hlo
  have hhi' : SP < 65536 := hhi
  have h1 : (((SP : Int) - 1) % 65536).toNat = SP - 1 := by omega
  have h2 : ((((SP - 1 : Nat) : Int) - 1) % 65536).toNat = SP - 2 := by omega
  have hm1 : (SP - 1) % 65536 = SP - 1 := by omega
  have hm2 : (SP - 2) % 65536 = SP - 2 := by omega
  have hm3 : (SP - 2 + 1) % 65536 = SP - 1 := by omega
  have hne1 : SP - 1 ≠ SP - 2 := by omega
  refine ⟨?_, ?_, ?_, ?_⟩ <;>
  · simp only [pushWord, popWord, setSP, writeByte, readByte, h1, h2, hm1, hm2, hm3,
      hne1, eq_self_iff_true, if_true, if_false, ne_eq, not_false_eq_true]
    omega

/-- Witness for C5: pushing 0x1234 from the fresh state (SP = 0xFFFE)
and popping returns 0x1234. -/
theorem c5_push_pop_roundtrip_witness :
    (popWord (pushWord (freshWith 0) 0x1234)).1 = 0x1234 :=
  (c5_push_pop_roundtrip (freshWith 0) 0x1234 (by decide) (by decide) (by decide)).1

set_option maxHeartbeats 1600000 in
/-- C8: the low byte of `getPSW` carries bit7=S, bit6=Z, bit5=0, bit4=AC,
bit3=0, bit2=P, bit1=1, bit0=CY, the high byte is the accumulator, and
`setPSW (getPSW ())` restores the accumulator and all five flags. -/
theorem c8_psw_layout_roundtrip (s : CPU8085) (hA : s.registers.A < 256) :
    getPSW s % 256 / 128 % 2 = (if s.flags.S then 1 else 0) ∧
    getPSW s % 256 / 64 % 2 = (if s.flags.Z then 1 else 0) ∧
    getPSW s % 256 / 32 % 2 = 0 ∧
    getPSW s % 256 / 16 % 2 = (if s.flags.AC then 1 else 0) ∧
    getPSW s % 256 / 8 % 2 = 0 ∧
    getPSW s % 256 / 4 % 2 = (if s.flags.P then 1 else 0) ∧
    getPSW s % 256 / 2 % 2 = 1 ∧
    getPSW s % 256 % 2 = (if s.flags.CY then 1 else 0) ∧
    getPSW s / 256 = s.registers.A ∧
    (setPSW s (getPSW s)).registers.A = s.registers.A ∧
    (setPSW s (getPSW s)).flags.S = s.flags.S ∧
    (setPSW s (getPSW s)).flags.Z = s.flags.Z ∧
    (setPSW s (getPSW s)).flags.AC = s.flags.AC ∧
    (setPSW s (getPSW s)).flags.P = s.flags.P ∧
    (setPSW s (getPSW s)).flags.CY = s.flags.CY := by
  obtain ⟨⟨A, B, C, D, E, H, L, SP, PC⟩, ⟨fS, fZ, fAC, fP, fCY⟩, mem, hl, ports⟩ := s
  have hA' : A < 256 := hA
  simp only [getPSW, setPSW, pswByte]
  cases fS <;> cases fZ <;> cases fAC <;> cases fP <;> cases fCY <;>
  · simp only [decide_eq_true_eq, Bool.false_eq_true, Bool.true_eq_false, if_true, if_false,
      ite_true, ite_false, decide_eq_false_iff_not]
    norm_num
    omega

/-- Witness for C8 on a concrete fresh state. -/
theorem c8_psw_layout_roundtrip_witness :
    getPSW (freshWith 0) % 256 / 128 % 2 = (if (freshWith 0).flags.S then 1 else 0) :=
  (c8_psw_layout_roundtrip (freshWith 0) (by decide)).1
